import Mathlib

/-!
Verification of the sustainable-design decision-support pipeline
(backend/app.py and the core components it wires together).

The Flask boundary layer lives in src/backend/app.py and is embedded
faithfully below: each route handler becomes a Lean function from the
request data (and from the outcomes of the trained-model calls, which
depend on runtime training data and are therefore passed as explicit
parameters) to a structured result that distinguishes the HTTP outcomes
the handler can produce.

The core component modules (constraints.py, generator.py, evaluator.py,
simple_ml.py) are imported by app.py but are not part of the available
sources; their definitions below are modelled from the specification and
are marked as such in their doc comments.

Python-specific conventions embedded explicitly:
  - a `try/except` around a collaborator call is modelled by `CallResult`
    (`raised` = the call threw, `ok v` = it returned `v`);
  - a JSON object field that may be missing is `Option _` (with `none` =
    key absent); a field that is always present but may be JSON `null`
    is also `Option _`; a field that may be either missing or null is
    `Option (Option _)` (`none` = key absent, `some none` = key present
    holding JSON null);
  - Python truthiness (`if x:`) on an optional number is `x ≠ None` and
    `x ≠ 0`; on an optional list it is `x ≠ None` and `x ≠ []`.
-/

/-- Outcome of calling a collaborator inside a Python `try/except`:
either the call raised, or it returned a value. -/
inductive CallResult (α : Type) where
  | raised : CallResult α
  | ok : α → CallResult α
  deriving DecidableEq, Repr

/-- Climate enumeration from the constraints data model. -/
inductive Climate where
  | cold : Climate
  | moderate : Climate
  | hot : Climate
  deriving DecidableEq, Repr

/-- Optimization priority enumeration from the constraints data model. -/
inductive Priority where
  | energy : Priority
  | water : Priority
  | materials : Priority
  deriving DecidableEq, Repr

/-- Raw JSON constraint input as received by the endpoints: every field
may be absent. -/
structure RawInput where
  area : Option Int
  budget : Option Int
  climate : Option String
  priority : Option String
  deriving DecidableEq, Repr

/-- A validated, parsed constraint set. -/
structure Constraints where
  area : Int
  budget : Int
  climate : Climate
  priority : Priority
  deriving DecidableEq, Repr

/-- The domain of valid constraints: area in [300,2000], budget in
[0,100] (climate and priority are already enumerations). -/
def ValidConstraints (c : Constraints) : Prop :=
  300 ≤ c.area ∧ c.area ≤ 2000 ∧ 0 ≤ c.budget ∧ c.budget ≤ 100

instance : DecidablePred ValidConstraints := fun c => by
  unfold ValidConstraints; infer_instance

/-- Parse a climate string into the enumeration. -/
def parseClimate : String → Option Climate
  | "cold" => some Climate.cold
  | "moderate" => some Climate.moderate
  | "hot" => some Climate.hot
  | _ => none

/-- Parse a priority string into the enumeration. -/
def parsePriority : String → Option Priority
  | "energy" => some Priority.energy
  | "water" => some Priority.water
  | "materials" => some Priority.materials
  | _ => none

/-- Modelled from the spec: constraints.py (ConstraintEngine.validate) is
not among the sources. Per-field check of `area`: missing or outside
[300,2000] yields one error message naming the field. -/
def areaError (r : RawInput) : Option String :=
  match r.area with
  | none => some ("area is required")
  | some a => if a < 300 ∨ 2000 < a then some ("area must be between 300 and 2000") else none

/-- Modelled from the spec: constraints.py (ConstraintEngine.validate) is
not among the sources. Per-field check of `budget`: missing or outside
[0,100] yields one error message naming the field. -/
def budgetError (r : RawInput) : Option String :=
  match r.budget with
  | none => some ("budget is required")
  | some b => if b < 0 ∨ 100 < b then some ("budget must be between 0 and 100") else none

/-- Modelled from the spec: constraints.py (ConstraintEngine.validate) is
not among the sources. Per-field check of `climate`: missing or not a
member of the enumeration yields one error message naming the field. -/
def climateError (r : RawInput) : Option String :=
  match r.climate with
  | none => some ("climate is required")
  | some s => match parseClimate s with
    | none => some ("climate must be one of cold, moderate, hot")
    | some _ => none

/-- Modelled from the spec: constraints.py (ConstraintEngine.validate) is
not among the sources. Per-field check of `priority`: missing or not a
member of the enumeration yields one error message naming the field. -/
def priorityError (r : RawInput) : Option String :=
  match r.priority with
  | none => some ("priority is required")
  | some s => match parsePriority s with
    | none => some ("priority must be one of energy, water, materials")
    | some _ => none

/-- Modelled from the spec: all per-field errors are collected together
(not fail-fast on the first error). -/
def validationErrors (r : RawInput) : List String :=
  (areaError r).toList ++ (budgetError r).toList ++ (climateError r).toList ++ (priorityError r).toList

/-- Modelled from the spec: constraints.py (ConstraintEngine.validate) is
not among the sources. `validate(input) -> (is_valid, errors)`. -/
def validate (r : RawInput) : Bool × List String :=
  ((validationErrors r).isEmpty, validationErrors r)

/-- Parse a raw input into a `Constraints` record (field presence and
enumeration membership; range checking belongs to `validate`). -/
def toConstraints (r : RawInput) : Option Constraints :=
  match r.area, r.budget, r.climate, r.priority with
  | some a, some b, some cs, some ps =>
    match parseClimate cs, parsePriority ps with
    | some cl, some pr => some ⟨a, b, cl, pr⟩
    | _, _ => none
  | _, _, _, _ => none

/-- Normalized constraint structure produced by processing. -/
structure ProcessedConstraints where
  area : Int
  budget : Int
  climate : Climate
  priority : Priority
  budgetTier : String
  climateCoeff : ℚ
  deriving DecidableEq, Repr

/-- Modelled from the spec: constraints.py (ConstraintEngine.process) is
not among the sources. Produces a normalized structure (budget tier
classification, resolved climate coefficient) from validated input;
pure and side-effect free, never mutating the original. -/
def process (c : Constraints) : ProcessedConstraints :=
  { area := c.area
    budget := c.budget
    climate := c.climate
    priority := c.priority
    budgetTier := if c.budget < 34 then "low" else if c.budget < 67 then "medium" else "high"
    climateCoeff := match c.climate with
      | Climate.cold => 12/10
      | Climate.moderate => 1
      | Climate.hot => 11/10 }

/-- Modelled from the spec: constraints.py
(ConstraintEngine.calculate_feasibility) is not among the sources.
Deterministic bounded scalar combining area/budget/climate/priority
interactions: larger area with very low budget lowers feasibility, hot
climate with energy priority raises it, and the score rises strictly
with budget. -/
def calculate_feasibility (p : ProcessedConstraints) : ℚ :=
  20 + (3 * (p.budget : ℚ)) / 5
    + (if p.climate = Climate.hot ∧ p.priority = Priority.energy then 10 else 0)
    - (if 1500 < p.area ∧ p.budget < 30 then 5 else 0)

/-- Result of the constraint-validation endpoint
(`/api/constraints/validate`, app.py `validate_constraints`):
`invalid errs` is the HTTP 400 `{valid: false, errors}` response,
`valid` is the HTTP 200 `{valid: true, original, processed,
feasibility_score}` response, `serverError` is the catch-all HTTP 500. -/
inductive ValidateResult where
  | invalid : List String → ValidateResult
  | valid : RawInput → ProcessedConstraints → ℚ → ValidateResult
  | serverError : ValidateResult
  deriving DecidableEq, Repr

/-- The `/api/constraints/validate` handler (app.py lines 193-229):
validate, return the error list on failure, otherwise process and attach
the feasibility score. -/
def validate_constraints_handler (r : RawInput) : ValidateResult :=
  if (validate r).1 then
    match toConstraints r with
    | some c => ValidateResult.valid r (process c) (calculate_feasibility (process c))
    | none => ValidateResult.serverError
  else
    ValidateResult.invalid (validate r).2

/-- The three sustainability metrics computed per design. -/
structure Metrics where
  energyEfficiency : ℚ
  waterEfficiency : ℚ
  carbonFootprint : ℚ
  deriving DecidableEq, Repr

/-- A design alternative. `metrics` and `ml_predicted_cost` start absent
and are attached by the generation pipeline (app.py lines 258-277). -/
structure Design where
  id : Nat
  name : String
  solarCapacity : ℚ
  greenScore : ℚ
  metrics : Option Metrics := none
  ml_predicted_cost : Option ℚ := none
  deriving DecidableEq, Repr

/-- Modelled from the spec: generator.py (DesignGenerator.generate) is
not among the sources. Synthesizes exactly three structurally distinct
alternatives, one per fixed archetype with stable ids 0, 1, 2, whose
attributes deterministically reflect the input constraints (priority
biases, area and budget scaling); a pure function of the constraints. -/
def generate (c : Constraints) : List Design :=
  [ { id := 0
      name := "Eco-Efficient"
      solarCapacity := (c.area : ℚ) / 100 * (if c.priority = Priority.energy then 3/2 else 1)
      greenScore := 60 + (c.budget : ℚ) / 5 }
  , { id := 1
      name := "Carbon-Optimized"
      solarCapacity := (c.area : ℚ) / 120 * (if c.climate = Climate.hot then 13/10 else 1)
      greenScore := 55 + (c.budget : ℚ) / 4 }
  , { id := 2
      name := "Regenerative"
      solarCapacity := (c.area : ℚ) / 80 * (if c.priority = Priority.water then 6/5 else 1)
      greenScore := 65 + (c.budget : ℚ) / 5 } ]

/-- Clamp a scalar into the declared metric bounds [0, 100]. -/
def clampMetric (q : ℚ) : ℚ := min 100 (max 0 q)

/-- Modelled from the spec: evaluator.py (SustainabilityEvaluator.evaluate)
is not among the sources. Computes the three metrics via deterministic
formulas informed by climate, area, budget and priority; each metric is a
pure function of (design, constraints), bounded in [0, 100], and
independent of the other designs. -/
def evaluate (d : Design) (c : Constraints) : Metrics :=
  { energyEfficiency := clampMetric
      (d.greenScore / 2 + (if c.priority = Priority.energy then 20 else 10)
        + (if c.climate = Climate.hot then 5 else 0) + (c.budget : ℚ) / 4)
    waterEfficiency := clampMetric
      (d.greenScore / 2 + (if c.priority = Priority.water then 20 else 10)
        + (if c.climate = Climate.hot then 8 else 3) + (c.budget : ℚ) / 5)
    carbonFootprint := clampMetric
      (80 - d.greenScore / 3 - (if c.priority = Priority.materials then 10 else 0)
        + (c.area : ℚ) / 200) }

/-- Rule-based composite score of an evaluated design: higher efficiency
and lower carbon footprint score better. -/
def ruleScore (d : Design) : ℚ :=
  match d.metrics with
  | some m => m.energyEfficiency + m.waterEfficiency + (100 - m.carbonFootprint)
  | none => 0

/-- Ordering used by the rule-based ranking: strictly higher score first,
exact ties broken by lower id (explicit, stable tie-break). -/
def rankBefore (a b : Design) : Bool :=
  decide (ruleScore b < ruleScore a ∨ (ruleScore a = ruleScore b ∧ a.id ≤ b.id))

/-- Insert a design into an already ranked list. -/
def insertRanked (d : Design) : List Design → List Design
  | [] => [d]
  | x :: xs => if rankBefore d x then d :: x :: xs else x :: insertRanked d xs

/-- A ranking entry of the rule-based ranking: the design, its composite
score, and its 1-based rank. -/
structure RankedDesign where
  design : Design
  total_score : ℚ
  rank : Nat
  deriving DecidableEq, Repr

/-- Modelled from the spec: evaluator.py
(SustainabilityEvaluator.rank_designs) is not among the sources.
Rule-based total order over already-evaluated designs: insertion sort by
composite score with the explicit id tie-break, then rank annotation. -/
def rank_designs (ds : List Design) : List RankedDesign :=
  ((ds.foldr insertRanked []).enum).map (fun p => ⟨p.2, ruleScore p.2, p.1 + 1⟩)

/-- Round to two decimal places, as `round(x, 2)` does in the handlers. -/
def round2 (q : ℚ) : ℚ := (round (q * 100) : ℤ) / 100

/-- Round to three decimal places, as `round(x, 3)` does. -/
def round3 (q : ℚ) : ℚ := (round (q * 1000) : ℤ) / 1000

/-- Python `int()` applied to a number: truncation toward zero. -/
def pyInt (q : ℚ) : Int := if q < 0 then ⌈q⌉ else ⌊q⌋

/-- One entry of an ML ranking in a response: `{id, ml_score}`. -/
structure RankEntry where
  id : Nat
  ml_score : ℚ
  deriving DecidableEq, Repr

/-- What SimpleDesignRecommender.recommend_design returns: a recommended
archetype id (or null) and a confidence scalar. -/
structure RecOut where
  recommended_design : Option Nat
  confidence : ℚ
  deriving DecidableEq, Repr

/-- The model-startup block of app.py (lines 150-178): whether or not
training raises, the flag ends up `True` (the `except` branch also sets
`ml_models_ready = True`, commented "Still ready with defaults"). -/
def startup_ml_ready (trainingRaises : Bool) : Bool :=
  if trainingRaises then true else true

/-- The `ml_enabled` field of the `/api/health` response (app.py line
188) reports the `ml_models_ready` flag. -/
def health_ml_enabled (ready : Bool) : Bool := ready

/-- The success body of `/api/designs/generate` (app.py lines 297-317).
`ml_rankings` and `recommendations` use the two-level option: the outer
`none` means the key was never added to the response dict, `some none`
means the key is present holding JSON null. `project_id` is added only
when persistence succeeds. -/
structure GenResponse where
  designs : List Design
  count : Nat
  constraints : RawInput
  ml_rankings : Option (Option (List RankEntry))
  recommendations : Option (Option RecOut)
  project_id : Option Nat
  deriving DecidableEq, Repr

/-- Result of the `/api/designs/generate` handler: `badRequest` is the
HTTP 400 `{error: 'Invalid constraints'}` response, `ok` is the HTTP 200
response, `serverError` is the catch-all HTTP 500. -/
inductive GenResult where
  | badRequest : String → GenResult
  | ok : GenResponse → GenResult
  | serverError : GenResult
  deriving DecidableEq, Repr

/-- The per-design ML cost enhancement (app.py lines 262-275): guarded by
`ml_models_ready`, the predictor call sits in a `try/except: pass`, and
the `ml_predicted_cost` field is attached only when the returned value is
truthy (`if predicted_cost:`), i.e. neither None nor zero. -/
def enhanceCost (ready : Bool) (pred : CallResult (Option ℚ)) (d : Design) : Design :=
  if ready then
    match pred with
    | CallResult.ok (some p) => if p ≠ 0 then { d with ml_predicted_cost := some p } else d
    | _ => d
  else d

/-- The `/api/designs/generate` handler (app.py lines 232-319),
parametrized over the generator and the runtime outcomes of the three
trained-model calls and of `save_project`. Validates, generates, attaches
`evaluate` metrics and the optional cost enhancement per design, adds the
`ml_rankings` and `recommendations` keys (possibly null) when
`ml_models_ready`, and attaches `project_id` only when persistence
succeeds (a raising `save_project` is swallowed by `except: pass`). -/
def generate_designs_pipeline (gen : Constraints → List Design) (ready : Bool)
    (predictor : Nat → CallResult (Option ℚ))
    (ranker : CallResult (List (Design × ℚ)))
    (recommender : CallResult RecOut)
    (save : CallResult Nat)
    (raw : RawInput) : GenResult :=
  if (validate raw).1 then
    match toConstraints raw with
    | none => GenResult.serverError
    | some c =>
      let designs := gen c
      let evaluated := designs.enum.map (fun p =>
        enhanceCost ready (predictor p.1) { p.2 with metrics := some (evaluate p.2 c) })
      let mlRankings : Option (List RankEntry) :=
        if ready then
          match ranker with
          | CallResult.ok ranked => some (ranked.map (fun q => ⟨q.1.id, round2 q.2⟩))
          | CallResult.raised => none
        else none
      let recommendations : Option RecOut :=
        if ready then
          match recommender with
          | CallResult.ok r => some r
          | CallResult.raised => none
        else none
      let resp : GenResponse :=
        { designs := evaluated
          count := evaluated.length
          constraints := raw
          ml_rankings := if ready then some mlRankings else none
          recommendations := if ready then some recommendations else none
          project_id := match save with
            | CallResult.ok pid => some pid
            | CallResult.raised => none }
      GenResult.ok resp
  else GenResult.badRequest ("Invalid constraints")

/-- The success body of `/api/comparison/rankings` (app.py lines
476-482): `ml_rankings` is added only when the computed value is truthy
(`if ml_rankings:`), so `none` here means the key is absent. -/
structure RankingsResponse where
  rule_based_rankings : List RankedDesign
  total_designs : Nat
  ml_rankings : Option (List RankEntry)
  deriving DecidableEq, Repr

/-- Result of the `/api/comparison/rankings` handler: `badRequest` is the
HTTP 400 `{error: 'No designs provided'}` response, `ok` the HTTP 200
response, `serverError` the catch-all HTTP 500. -/
inductive RankingsResult where
  | badRequest : String → RankingsResult
  | ok : RankingsResponse → RankingsResult
  | serverError : RankingsResult
  deriving DecidableEq, Repr

/-- The `/api/comparison/rankings` handler (app.py lines 444-487): the
rule-based ranking always runs; the ML ranking sits in a `try/except:
pass` and its key is added only when the result is truthy. -/
def get_rankings_handler (ready : Bool) (designs : List Design)
    (ranker : CallResult (List (Design × ℚ))) : RankingsResult :=
  if designs.isEmpty then RankingsResult.badRequest ("No designs provided")
  else
    let mlRankings : Option (List RankEntry) :=
      if ready then
        match ranker with
        | CallResult.ok ranked => some (ranked.map (fun q => ⟨q.1.id, round2 q.2⟩))
        | CallResult.raised => none
      else none
    RankingsResult.ok
      { rule_based_rankings := rank_designs designs
        total_designs := designs.length
        ml_rankings := match mlRankings with
          | some l => if l.isEmpty then none else some l
          | none => none }

/-- Result of the `/api/ml/cost-prediction` handler:
`serviceUnavailable` is the HTTP 503 `{error: 'ML models not available'}`
response, `predictionFailed` the HTTP 500 `{error: 'Prediction failed'}`
response returned when the predictor yields None, `serverError` the
catch-all HTTP 500, and `ok` the HTTP 200 response carrying the
truncated cost, the fixed confidence and the feature importances. -/
inductive CostResult where
  | serviceUnavailable : CostResult
  | predictionFailed : CostResult
  | serverError : CostResult
  | ok : Int → ℚ → List (String × ℚ) → CostResult
  deriving DecidableEq, Repr

/-- The `/api/ml/cost-prediction` handler (app.py lines 490-532): a 503
gate on `ml_models_ready`, then the predictor call; a None prediction is
answered with the HTTP 500 'Prediction failed' error, a successful one
with `int(predicted_cost)`, confidence 0.85 and the feature importance
mapping. -/
def predict_cost_handler (ready : Bool) (pred : CallResult (Option ℚ))
    (importance : List (String × ℚ)) : CostResult :=
  if ready then
    match pred with
    | CallResult.raised => CostResult.serverError
    | CallResult.ok none => CostResult.predictionFailed
    | CallResult.ok (some p) => CostResult.ok (pyInt p) (85/100) importance
  else CostResult.serviceUnavailable

/-- The fixed id-to-name mapping owned by the recommendation endpoint
(app.py line 557). -/
def design_names : List String := ["Eco-Efficient", "Carbon-Optimized", "Regenerative"]

/-- The success body of `/api/ml/recommendations` (app.py lines
559-565). -/
structure RecoResponse where
  recommended_design : Option String
  recommended_design_id : Option Nat
  confidence : ℚ
  deriving DecidableEq, Repr

/-- Result of the `/api/ml/recommendations` handler:
`serviceUnavailable` is the HTTP 503 gate, `serverError` the catch-all
HTTP 500 (also reached when a non-null id falls outside the name list,
since the Python indexing raises), `ok` the HTTP 200 response. -/
inductive RecoResult where
  | serviceUnavailable : RecoResult
  | serverError : RecoResult
  | ok : RecoResponse → RecoResult
  deriving DecidableEq, Repr

/-- The `/api/ml/recommendations` handler (app.py lines 535-570): a 503
gate on `ml_models_ready`, then the recommender call; a null recommended
id yields null for both the name and the id fields in a successful
response, a non-null id is mapped through `design_names`. -/
def get_recommendations_handler (ready : Bool) (rec : CallResult RecOut) : RecoResult :=
  if ready then
    match rec with
    | CallResult.raised => RecoResult.serverError
    | CallResult.ok r =>
      match r.recommended_design with
      | none => RecoResult.ok ⟨none, none, round3 r.confidence⟩
      | some i =>
        match design_names[i]? with
        | some nm => RecoResult.ok ⟨some nm, some i, round3 r.confidence⟩
        | none => RecoResult.serverError
  else RecoResult.serviceUnavailable

/-- Whether string `p` is a prefix of string `s` (used to state that an
error message names the offending field). -/
def strHasPrefix (p s : String) : Bool := p.data.isPrefixOf s.data

/-- The `area` field is missing or out of range in a raw input. -/
def areaBad (r : RawInput) : Bool :=
  match r.area with
  | none => true
  | some a => decide (a < 300 ∨ 2000 < a)

/-- The `budget` field is missing or out of range in a raw input. -/
def budgetBad (r : RawInput) : Bool :=
  match r.budget with
  | none => true
  | some b => decide (b < 0 ∨ 100 < b)

/-- The `climate` field is missing or not in the enumeration. -/
def climateBad (r : RawInput) : Bool :=
  match r.climate with
  | none => true
  | some s => (parseClimate s).isNone

/-- The `priority` field is missing or not in the enumeration. -/
def priorityBad (r : RawInput) : Bool :=
  match r.priority with
  | none => true
  | some s => (parsePriority s).isNone

/-- How many of the four constraint fields are missing or out of range. -/
def badFieldCount (r : RawInput) : Nat :=
  (if areaBad r then 1 else 0) + (if budgetBad r then 1 else 0) +
  (if climateBad r then 1 else 0) + (if priorityBad r then 1 else 0)

/-- The `ml_rankings` entry of a generation result (outer `none` = the
key is absent from the response dict, `some none` = the key is present
holding JSON null). -/
def responseRankings : GenResult → Option (Option (List RankEntry))
  | GenResult.ok r => r.ml_rankings
  | _ => none

/-- The `recommendations` entry of a generation result (same key/null
encoding as `responseRankings`). -/
def responseRecommendations : GenResult → Option (Option RecOut)
  | GenResult.ok r => r.recommendations
  | _ => none

/-- A concrete valid request, used by the witnesses. -/
def raw0 : RawInput := ⟨some 1000, some 50, some ("moderate"), some ("energy")⟩

/-- The parsed form of `raw0`. -/
def c0 : Constraints := ⟨1000, 50, Climate.moderate, Priority.energy⟩

/-- The invalid request from the spec scenario: area 50 is below the
minimum of 300. -/
def invalidRaw : RawInput := ⟨some 50, some 60, some ("hot"), some ("water")⟩

/-- A concrete design used by the witnesses of the ranking claims. -/
def d0 : Design := ⟨0, "Eco-Efficient", 10, 60, none, none⟩

theorem enhanceCost_id (ready : Bool) (pred : CallResult (Option ℚ)) (d : Design) :
    (enhanceCost ready pred d).id = d.id := by
  unfold enhanceCost
  cases ready <;> rcases pred with _ | (_ | p) <;> simp <;> split <;> rfl

theorem enhanceCost_metrics (ready : Bool) (pred : CallResult (Option ℚ)) (d : Design) :
    (enhanceCost ready pred d).metrics = d.metrics := by
  unfold enhanceCost
  cases ready <;> rcases pred with _ | (_ | p) <;> simp <;> split <;> rfl

theorem enhanceCost_ok_none (ready : Bool) (d : Design) :
    enhanceCost ready (CallResult.ok none) d = d := by
  unfold enhanceCost
  cases ready <;> rfl

theorem areaError_isSome (r : RawInput) : (areaError r).isSome = areaBad r := by
  unfold areaError areaBad
  cases r.area with
  | none => rfl
  | some a => by_cases h : a < 300 ∨ 2000 < a <;> simp [h]

theorem budgetError_isSome (r : RawInput) : (budgetError r).isSome = budgetBad r := by
  unfold budgetError budgetBad
  cases r.budget with
  | none => rfl
  | some b => by_cases h : b < 0 ∨ 100 < b <;> simp [h]

theorem climateError_isSome (r : RawInput) : (climateError r).isSome = climateBad r := by
  unfold climateError climateBad
  cases r.climate with
  | none => rfl
  | some s => cases h : parseClimate s <;> simp [h]

theorem priorityError_isSome (r : RawInput) : (priorityError r).isSome = priorityBad r := by
  unfold priorityError priorityBad
  cases r.priority with
  | none => rfl
  | some s => cases h : parsePriority s <;> simp [h]

theorem areaError_names (r : RawInput) (msg : String) (h : areaError r = some msg) :
    strHasPrefix ("area") msg = true := by
  unfold areaError at h
  split at h
  · injection h with h1
    rw [← h1]; decide
  · split at h
    · injection h with h1
      rw [← h1]; decide
    · exact Option.noConfusion h

theorem budgetError_names (r : RawInput) (msg : String) (h : budgetError r = some msg) :
    strHasPrefix ("budget") msg = true := by
  unfold budgetError at h
  split at h
  · injection h with h1
    rw [← h1]; decide
  · split at h
    · injection h with h1
      rw [← h1]; decide
    · exact Option.noConfusion h

theorem climateError_names (r : RawInput) (msg : String) (h : climateError r = some msg) :
    strHasPrefix ("climate") msg = true := by
  unfold climateError at h
  split at h
  · injection h with h1
    rw [← h1]; decide
  · split at h
    · injection h with h1
      rw [← h1]; decide
    · exact Option.noConfusion h

theorem priorityError_names (r : RawInput) (msg : String) (h : priorityError r = some msg) :
    strHasPrefix ("priority") msg = true := by
  unfold priorityError at h
  split at h
  · injection h with h1
    rw [← h1]; decide
  · split at h
    · injection h with h1
      rw [← h1]; decide
    · exact Option.noConfusion h

theorem optToList_length {α : Type} (o : Option α) :
    o.toList.length = if o.isSome then 1 else 0 := by
  cases o <;> rfl

theorem validationErrors_length (r : RawInput) :
    (validationErrors r).length = badFieldCount r := by
  unfold validationErrors badFieldCount
  simp [optToList_length, areaError_isSome, budgetError_isSome, climateError_isSome,
    priorityError_isSome]
  ring

theorem toConstraints_of_good (r : RawInput) (h : badFieldCount r = 0) :
    ∃ c, toConstraints r = some c := by
  unfold badFieldCount at h
  have hA : areaBad r = false := by by_cases hx : areaBad r <;> simp [hx] at h ⊢
  have hB : budgetBad r = false := by by_cases hx : budgetBad r <;> simp [hx] at h ⊢
  have hC : climateBad r = false := by by_cases hx : climateBad r <;> simp [hx] at h ⊢
  have hP : priorityBad r = false := by by_cases hx : priorityBad r <;> simp [hx] at h ⊢
  unfold areaBad at hA
  unfold budgetBad at hB
  unfold climateBad at hC
  unfold priorityBad at hP
  unfold toConstraints
  cases hra : r.area with
  | none => rw [hra] at hA; exact Bool.noConfusion hA
  | some a =>
    cases hrb : r.budget with
    | none => rw [hrb] at hB; exact Bool.noConfusion hB
    | some b =>
      cases hrc : r.climate with
      | none => rw [hrc] at hC; exact Bool.noConfusion hC
      | some cs =>
        cases hrp : r.priority with
        | none => rw [hrp] at hP; exact Bool.noConfusion hP
        | some ps =>
          rw [hrc] at hC
          rw [hrp] at hP
          cases hpc : parseClimate cs with
          | none => simp [hpc] at hC
          | some cl =>
            cases hpp : parsePriority ps with
            | none => simp [hpp] at hP
            | some pr => exact ⟨⟨a, b, cl, pr⟩, by simp [hra, hrb, hrc, hrp, hpc, hpp]⟩

/-- Claim C1: for every valid constraints input to the design-generation
endpoint, the pipeline produces exactly 3 designs with distinct ids
0, 1, 2, each carrying non-null metrics computed by
SustainabilityEvaluator.evaluate, and the response count field equals
the number of designs returned. -/
theorem generation_returns_three_designs_with_metrics (raw : RawInput) (c : Constraints)
    (predictor : Nat → CallResult (Option ℚ)) (ranker : CallResult (List (Design × ℚ)))
    (recommender : CallResult RecOut) (save : CallResult Nat)
    (hv : (validate raw).1 = true) (hc : toConstraints raw = some c) :
    ∃ resp, generate_designs_pipeline generate true predictor ranker recommender save raw =
        GenResult.ok resp ∧
      resp.designs.length = 3 ∧
      resp.designs.map Design.id = [0, 1, 2] ∧
      resp.designs.map Design.metrics = (generate c).map (fun d => some (evaluate d c)) ∧
      resp.count = resp.designs.length := by
  unfold generate_designs_pipeline
  rw [hv, hc]
  simp only [if_true]
  refine ⟨_, rfl, ?_, ?_, ?_, ?_⟩
  · simp [generate, List.enum, List.enumFrom]
  · simp [generate, List.enum, List.enumFrom, enhanceCost_id]
  · simp [generate, List.enum, List.enumFrom, enhanceCost_metrics]
  · simp [List.length_map]

/-- Witness for `generation_returns_three_designs_with_metrics` at the
concrete valid request `raw0`. -/
theorem generation_returns_three_designs_with_metrics_witness :
    (validate raw0).1 = true ∧ toConstraints raw0 = some c0 ∧
    ∃ resp, generate_designs_pipeline generate true (fun _ => CallResult.raised)
        CallResult.raised CallResult.raised CallResult.raised raw0 = GenResult.ok resp ∧
      resp.designs.length = 3 ∧
      resp.designs.map Design.id = [0, 1, 2] ∧
      resp.designs.map Design.metrics = (generate c0).map (fun d => some (evaluate d c0)) ∧
      resp.count = resp.designs.length :=
  ⟨by decide, by decide,
    generation_returns_three_designs_with_metrics raw0 c0 (fun _ => CallResult.raised)
      CallResult.raised CallResult.raised CallResult.raised (by decide) (by decide)⟩

/-- Claim C2: DesignGenerator.generate is a pure function of the
constraints: two calls with identical constraint inputs return identical
design lists (no model state, no randomness; the embedding of generate is
a deterministic function, so equality of inputs gives equality of
outputs). -/
theorem generate_is_pure_function_of_constraints (c₁ c₂ : Constraints) (h : c₁ = c₂) :
    generate c₁ = generate c₂ := by rw [h]

/-- Witness for `generate_is_pure_function_of_constraints` at the
concrete constraints `c0`. -/
theorem generate_is_pure_function_of_constraints_witness :
    c0 = c0 ∧ generate c0 = generate c0 :=
  ⟨rfl, generate_is_pure_function_of_constraints c0 c0 rfl⟩

/-- Counterexample to claim C3 as stated: at the cost-prediction
endpoint a null prediction IS treated as a fatal error for the request.
`CostResult.predictionFailed` is the HTTP 500 `{error: 'Prediction
failed'}` response (app.py lines 518-519), so when the predictor
returns None while the service gate is open, the request fails rather
than succeeding without the enhancement. -/
theorem cost_endpoint_null_prediction_rejected :
    predict_cost_handler true (CallResult.ok none) [] = CostResult.predictionFailed := rfl

/-- Claim C3 (amended): in the generation pipeline a null prediction
makes the caller omit the ml_predicted_cost enhancement and the request
still succeeds, but the dedicated cost-prediction endpoint instead
answers a null prediction with the HTTP 500 'Prediction failed'
error. -/
theorem missing_prediction_omits_enhancement (raw : RawInput) (c : Constraints)
    (predictor : Nat → CallResult (Option ℚ)) (ranker : CallResult (List (Design × ℚ)))
    (recommender : CallResult RecOut) (save : CallResult Nat)
    (importance : List (String × ℚ))
    (hp : ∀ i, predictor i = CallResult.ok none)
    (hv : (validate raw).1 = true) (hc : toConstraints raw = some c) :
    (∃ resp, generate_designs_pipeline generate true predictor ranker recommender save raw =
        GenResult.ok resp ∧
      ∀ d ∈ resp.designs, d.ml_predicted_cost = none) ∧
    predict_cost_handler true (CallResult.ok none) importance = CostResult.predictionFailed := by
  refine ⟨?_, rfl⟩
  unfold generate_designs_pipeline
  rw [hv, hc]
  refine ⟨_, rfl, ?_⟩
  simp [generate, List.enum, List.enumFrom, hp, enhanceCost_ok_none]

/-- Witness for `missing_prediction_omits_enhancement` at the concrete
valid request `raw0` with a predictor that always returns None. -/
theorem missing_prediction_omits_enhancement_witness :
    (∀ i : Nat, (fun _ : Nat => CallResult.ok (none : Option ℚ)) i = CallResult.ok none) ∧
    (validate raw0).1 = true ∧ toConstraints raw0 = some c0 ∧
    ((∃ resp, generate_designs_pipeline generate true (fun _ => CallResult.ok none)
        CallResult.raised CallResult.raised CallResult.raised raw0 = GenResult.ok resp ∧
      ∀ d ∈ resp.designs, d.ml_predicted_cost = none) ∧
    predict_cost_handler true (CallResult.ok none) [] = CostResult.predictionFailed) :=
  ⟨fun _ => rfl, by decide, by decide,
    missing_prediction_omits_enhancement raw0 c0 (fun _ => CallResult.ok none)
      CallResult.raised CallResult.raised CallResult.raised [] (fun _ => rfl)
      (by decide) (by decide)⟩

/-- Counterexample to claim C4 as stated: in the generation endpoint a
failed ranker or recommender does NOT leave the enhancement absent from
the response: because ml_models_ready is true, the `ml_rankings` and
`recommendations` keys are always added, holding JSON null (`some none`
in the key/null encoding, whereas key-absence would be `none`). -/
theorem ml_failure_keys_present_as_null :
    responseRankings (generate_designs_pipeline generate true (fun _ => CallResult.raised)
      CallResult.raised CallResult.raised CallResult.raised raw0) = some none ∧
    responseRecommendations (generate_designs_pipeline generate true (fun _ => CallResult.raised)
      CallResult.raised CallResult.raised CallResult.raised raw0) = some none := by
  constructor <;> rfl

/-- Claim C4 (amended): when the ranker or recommender fails, the
rule-based results are still returned — in the generation endpoint the
designs with their metrics, in the rankings endpoint the rule-based
rankings — while the affected ML enhancement carries no data: its key is
present holding null in the generation response, and absent from the
rankings response. -/
theorem ml_failure_degrades_gracefully (raw : RawInput) (c : Constraints)
    (predictor : Nat → CallResult (Option ℚ)) (save : CallResult Nat)
    (designs : List Design) (hne : designs ≠ [])
    (hv : (validate raw).1 = true) (hc : toConstraints raw = some c) :
    (∃ resp, generate_designs_pipeline generate true predictor CallResult.raised
        CallResult.raised save raw = GenResult.ok resp ∧
      resp.ml_rankings = some none ∧ resp.recommendations = some none ∧
      resp.designs.map Design.metrics = (generate c).map (fun d => some (evaluate d c))) ∧
    (∃ rresp, get_rankings_handler true designs CallResult.raised = RankingsResult.ok rresp ∧
      rresp.ml_rankings = none ∧ rresp.rule_based_rankings = rank_designs designs) := by
  constructor
  · unfold generate_designs_pipeline
    rw [hv, hc]
    refine ⟨_, rfl, rfl, rfl, ?_⟩
    simp [generate, List.enum, List.enumFrom, enhanceCost_metrics]
  · unfold get_rankings_handler
    have h : designs.isEmpty = false := by
      cases designs with
      | nil => simp at hne
      | cons a l => rfl
    rw [h]
    exact ⟨_, rfl, rfl, rfl⟩

/-- Witness for `ml_failure_degrades_gracefully` at the concrete valid
request `raw0` and the one-design list `[d0]`. -/
theorem ml_failure_degrades_gracefully_witness :
    ([d0] : List Design) ≠ [] ∧ (validate raw0).1 = true ∧ toConstraints raw0 = some c0 ∧
    ((∃ resp, generate_designs_pipeline generate true (fun _ => CallResult.raised)
        CallResult.raised CallResult.raised (CallResult.ok 7) raw0 = GenResult.ok resp ∧
      resp.ml_rankings = some none ∧ resp.recommendations = some none ∧
      resp.designs.map Design.metrics = (generate c0).map (fun d => some (evaluate d c0))) ∧
    (∃ rresp, get_rankings_handler true [d0] CallResult.raised = RankingsResult.ok rresp ∧
      rresp.ml_rankings = none ∧ rresp.rule_based_rankings = rank_designs [d0])) :=
  ⟨by decide, by decide, by decide,
    ml_failure_degrades_gracefully raw0 c0 (fun _ => CallResult.raised) (CallResult.ok 7)
      [d0] (by decide) (by decide) (by decide)⟩

/-- Claim C5: for every input to the validation endpoint, the output is
either the invalid response carrying exactly one error message per
missing or out-of-range field, each message naming its field (all
problems reported together, not fail-fast), or the valid response
carrying the processed constraints and the feasibility score when every
field passes its domain check. -/
theorem validation_reports_all_field_errors (r : RawInput) :
    (0 < badFieldCount r ∧
      validate_constraints_handler r = ValidateResult.invalid (validationErrors r) ∧
      (validationErrors r).length = badFieldCount r ∧
      ∀ msg ∈ validationErrors r,
        (areaBad r = true ∧ strHasPrefix ("area") msg = true) ∨
        (budgetBad r = true ∧ strHasPrefix ("budget") msg = true) ∨
        (climateBad r = true ∧ strHasPrefix ("climate") msg = true) ∨
        (priorityBad r = true ∧ strHasPrefix ("priority") msg = true)) ∨
    (badFieldCount r = 0 ∧
      ∃ c, toConstraints r = some c ∧
        validate_constraints_handler r =
          ValidateResult.valid r (process c) (calculate_feasibility (process c))) := by
  by_cases h : badFieldCount r = 0
  · right
    obtain ⟨c, hc⟩ := toConstraints_of_good r h
    have hlen : (validationErrors r).length = 0 := by rw [validationErrors_length, h]
    have hemp : (validationErrors r).isEmpty = true := by
      cases hE : validationErrors r with
      | nil => rfl
      | cons x xs => rw [hE] at hlen; exact Nat.noConfusion hlen
    refine ⟨h, c, hc, ?_⟩
    unfold validate_constraints_handler validate
    rw [hc]
    simp [hemp]
  · left
    have hpos : 0 < badFieldCount r := Nat.pos_of_ne_zero h
    have hne : (validationErrors r).isEmpty = false := by
      cases hE : validationErrors r with
      | nil =>
        exfalso
        apply h
        rw [← validationErrors_length, hE]
        rfl
      | cons x xs => rfl
    refine ⟨hpos, ?_, validationErrors_length r, ?_⟩
    · unfold validate_constraints_handler validate
      simp [hne]
    · intro msg hm
      unfold validationErrors at hm
      rcases List.mem_append.mp hm with hm' | hmp
      · rcases List.mem_append.mp hm' with hm'' | hmc
        · rcases List.mem_append.mp hm'' with hma | hmb
          · left
            have ha : areaError r = some msg := Option.mem_toList.mp hma
            exact ⟨by rw [← areaError_isSome, ha]; rfl, areaError_names r msg ha⟩
          · right; left
            have hb : budgetError r = some msg := Option.mem_toList.mp hmb
            exact ⟨by rw [← budgetError_isSome, hb]; rfl, budgetError_names r msg hb⟩
        · right; right; left
          have hcl : climateError r = some msg := Option.mem_toList.mp hmc
          exact ⟨by rw [← climateError_isSome, hcl]; rfl, climateError_names r msg hcl⟩
      · right; right; right
        have hp : priorityError r = some msg := Option.mem_toList.mp hmp
        exact ⟨by rw [← priorityError_isSome, hp]; rfl, priorityError_names r msg hp⟩

/-- Claim C6: for the input `{area:50, budget:60, climate:"hot",
priority:"water"}` (area below the minimum of 300), validation fails
with an error naming area, and the generation endpoint answers the
invalid-constraints error without the design generator ever being
invoked (the response is the same for every possible generator). -/
theorem invalid_area_rejected_before_generation :
    (validate invalidRaw).1 = false ∧
    (∃ msg ∈ (validate invalidRaw).2, strHasPrefix ("area") msg = true) ∧
    ∀ (gen : Constraints → List Design) (ready : Bool)
      (predictor : Nat → CallResult (Option ℚ)) (ranker : CallResult (List (Design × ℚ)))
      (recommender : CallResult RecOut) (save : CallResult Nat),
      generate_designs_pipeline gen ready predictor ranker recommender save invalidRaw =
        GenResult.badRequest ("Invalid constraints") := by
  refine ⟨by decide, ⟨"area must be between 300 and 2000", by decide, by decide⟩, ?_⟩
  intro gen ready predictor ranker recommender save
  unfold generate_designs_pipeline
  rw [show (validate invalidRaw).1 = false by decide]
  simp

/-- Claim C7: for valid constraints, validate-process-calculate_feasibility
yields a score within the declared bounds [0, 100], and holding area
fixed above a threshold the feasibility score strictly decreases as
budget decreases (equivalently, it strictly increases with budget). -/
theorem feasibility_bounded_and_monotone (c : Constraints) (b₁ b₂ : Int)
    (hv : ValidConstraints c) (hth : 1000 ≤ c.area)
    (hb₁ : 0 ≤ b₁) (hb₂ : b₂ ≤ 100) (hlt : b₁ < b₂) :
    (0 ≤ calculate_feasibility (process c) ∧ calculate_feasibility (process c) ≤ 100) ∧
    calculate_feasibility (process { c with budget := b₁ }) <
      calculate_feasibility (process { c with budget := b₂ }) := by
  obtain ⟨ha₁, ha₂, hb₀, hb₁₀⟩ := hv
  have hq₀ : (0 : ℚ) ≤ (c.budget : ℚ) := by exact_mod_cast hb₀
  have hq₁ : (c.budget : ℚ) ≤ 100 := by exact_mod_cast hb₁₀
  have hqlt : (b₁ : ℚ) < (b₂ : ℚ) := by exact_mod_cast hlt
  unfold calculate_feasibility process
  constructor
  · constructor <;> dsimp only <;> split_ifs <;> linarith
  · dsimp only
    split_ifs <;> first | linarith | (exfalso; omega)

/-- Witness for `feasibility_bounded_and_monotone` at the concrete
constraints area 1200, budget 60, hot climate, water priority, with the
budget pair 40 < 60. -/
theorem feasibility_bounded_and_monotone_witness :
    ValidConstraints ⟨1200, 60, Climate.hot, Priority.water⟩ ∧
    (1000 : Int) ≤ (⟨1200, 60, Climate.hot, Priority.water⟩ : Constraints).area ∧
    (0 : Int) ≤ 40 ∧ (60 : Int) ≤ 100 ∧ (40 : Int) < 60 ∧
    ((0 ≤ calculate_feasibility (process ⟨1200, 60, Climate.hot, Priority.water⟩) ∧
      calculate_feasibility (process ⟨1200, 60, Climate.hot, Priority.water⟩) ≤ 100) ∧
    calculate_feasibility (process ⟨1200, 40, Climate.hot, Priority.water⟩) <
      calculate_feasibility (process ⟨1200, 60, Climate.hot, Priority.water⟩)) :=
  ⟨by decide, by decide, by decide, by decide, by decide,
    feasibility_bounded_and_monotone ⟨1200, 60, Climate.hot, Priority.water⟩ 40 60
      (by decide) (by decide) (by decide) (by decide) (by decide)⟩

/-- Claim C8: every recommendation-endpoint response built from a
recommender result carries recommended_design_id and confidence, the
name field is derived from the id by the fixed boundary-owned mapping
0 = Eco-Efficient, 1 = Carbon-Optimized, 2 = Regenerative, and a null
recommender id yields null for both the name and the id fields in a
response that is still a success, not an error. -/
theorem recommendation_mapping_and_null_success (r : RecOut)
    (h : r.recommended_design = none ∨ ∃ i, r.recommended_design = some i ∧ i < 3) :
    ∃ resp, get_recommendations_handler true (CallResult.ok r) = RecoResult.ok resp ∧
      resp.recommended_design_id = r.recommended_design ∧
      resp.confidence = round3 r.confidence ∧
      (r.recommended_design = none → resp.recommended_design = none) ∧
      (r.recommended_design = some 0 → resp.recommended_design = some ("Eco-Efficient")) ∧
      (r.recommended_design = some 1 → resp.recommended_design = some ("Carbon-Optimized")) ∧
      (r.recommended_design = some 2 → resp.recommended_design = some ("Regenerative")) := by
  rcases h with h0 | ⟨i, hi, hlt⟩
  · refine ⟨⟨none, none, round3 r.confidence⟩, ?_, by rw [h0], rfl, fun _ => rfl, ?_, ?_, ?_⟩
    · simp [get_recommendations_handler, h0]
    · intro hx; rw [h0] at hx; exact Option.noConfusion hx
    · intro hx; rw [h0] at hx; exact Option.noConfusion hx
    · intro hx; rw [h0] at hx; exact Option.noConfusion hx
  · interval_cases i
    · refine ⟨⟨some ("Eco-Efficient"), some 0, round3 r.confidence⟩,
        by simp [get_recommendations_handler, hi, design_names], by rw [hi], rfl, ?_,
        fun _ => rfl, ?_, ?_⟩ <;>
        (intro hx; rw [hi] at hx; simp at hx)
    · refine ⟨⟨some ("Carbon-Optimized"), some 1, round3 r.confidence⟩,
        by simp [get_recommendations_handler, hi, design_names], by rw [hi], rfl, ?_, ?_,
        fun _ => rfl, ?_⟩ <;>
        (intro hx; rw [hi] at hx; simp at hx)
    · refine ⟨⟨some ("Regenerative"), some 2, round3 r.confidence⟩,
        by simp [get_recommendations_handler, hi, design_names], by rw [hi], rfl, ?_, ?_, ?_,
        fun _ => rfl⟩ <;>
        (intro hx; rw [hi] at hx; simp at hx)

/-- Witness for `recommendation_mapping_and_null_success` at the
concrete recommender result id 1 with confidence 7/10. -/
theorem recommendation_mapping_and_null_success_witness :
    ((⟨some 1, 7/10⟩ : RecOut).recommended_design = none ∨
      ∃ i, (⟨some 1, 7/10⟩ : RecOut).recommended_design = some i ∧ i < 3) ∧
    ∃ resp, get_recommendations_handler true (CallResult.ok ⟨some 1, 7/10⟩) =
        RecoResult.ok resp ∧
      resp.recommended_design_id = (⟨some 1, 7/10⟩ : RecOut).recommended_design ∧
      resp.confidence = round3 (⟨some 1, 7/10⟩ : RecOut).confidence ∧
      ((⟨some 1, 7/10⟩ : RecOut).recommended_design = none →
        resp.recommended_design = none) ∧
      ((⟨some 1, 7/10⟩ : RecOut).recommended_design = some 0 →
        resp.recommended_design = some ("Eco-Efficient")) ∧
      ((⟨some 1, 7/10⟩ : RecOut).recommended_design = some 1 →
        resp.recommended_design = some ("Carbon-Optimized")) ∧
      ((⟨some 1, 7/10⟩ : RecOut).recommended_design = some 2 →
        resp.recommended_design = some ("Regenerative")) :=
  ⟨Or.inr ⟨1, rfl, by decide⟩,
    recommendation_mapping_and_null_success ⟨some 1, 7/10⟩ (Or.inr ⟨1, rfl, by decide⟩)⟩

/-- Claim C9: after startup ml_models_ready is true unconditionally —
it is set to true even when model training raises — so the 'ML models
not available' 503 branches of the cost-prediction and recommendation
endpoints are unreachable and the health endpoint always reports
ml_enabled as true. -/
theorem ml_models_ready_unconditionally :
    ∀ (trainingRaises : Bool) (pred : CallResult (Option ℚ)) (imp : List (String × ℚ))
      (rec : CallResult RecOut),
      startup_ml_ready trainingRaises = true ∧
      predict_cost_handler (startup_ml_ready trainingRaises) pred imp ≠
        CostResult.serviceUnavailable ∧
      get_recommendations_handler (startup_ml_ready trainingRaises) rec ≠
        RecoResult.serviceUnavailable ∧
      health_ml_enabled (startup_ml_ready trainingRaises) = true := by
  intro b pred imp rec
  have hb : startup_ml_ready b = true := by cases b <;> rfl
  rw [hb]
  refine ⟨rfl, ?_, ?_, rfl⟩
  · rcases pred with _ | (_ | p) <;> simp [predict_cost_handler]
  · rcases rec with _ | r
    · simp [get_recommendations_handler]
    · rcases hr : r.recommended_design with _ | i
      · simp [get_recommendations_handler, hr]
      · rcases hn : design_names[i]? with _ | nm <;>
          simp [get_recommendations_handler, hr, hn]

/-- Claim C10: for every successful generation request, a raising
save_project still lets the endpoint return the full success response,
merely without the project_id field; the designs, rankings and
recommendations are exactly the ones of the response produced when
persistence succeeds. -/
theorem save_failure_does_not_fail_request (raw : RawInput) (c : Constraints)
    (predictor : Nat → CallResult (Option ℚ)) (ranker : CallResult (List (Design × ℚ)))
    (recommender : CallResult RecOut) (n : Nat)
    (hv : (validate raw).1 = true) (hc : toConstraints raw = some c) :
    ∃ resp, generate_designs_pipeline generate true predictor ranker recommender
        CallResult.raised raw = GenResult.ok resp ∧
      resp.project_id = none ∧
      generate_designs_pipeline generate true predictor ranker recommender
        (CallResult.ok n) raw = GenResult.ok { resp with project_id := some n } := by
  unfold generate_designs_pipeline
  rw [hv, hc]
  exact ⟨_, rfl, rfl, rfl⟩

/-- Witness for `save_failure_does_not_fail_request` at the concrete
valid request `raw0` with project id 42. -/
theorem save_failure_does_not_fail_request_witness :
    (validate raw0).1 = true ∧ toConstraints raw0 = some c0 ∧
    ∃ resp, generate_designs_pipeline generate true (fun _ => CallResult.raised)
        CallResult.raised CallResult.raised CallResult.raised raw0 = GenResult.ok resp ∧
      resp.project_id = none ∧
      generate_designs_pipeline generate true (fun _ => CallResult.raised)
        CallResult.raised CallResult.raised (CallResult.ok 42) raw0 =
        GenResult.ok { resp with project_id := some 42 } :=
  ⟨by decide, by decide,
    save_failure_does_not_fail_request raw0 c0 (fun _ => CallResult.raised)
      CallResult.raised CallResult.raised 42 (by decide) (by decide)⟩
